import Mathlib

/-!
# slang-c.cpp: the option value builders and the `compile_slang` pipeline

A shallow embedding of `src/slang-c.cpp`.  The wrapped compiler library and the
allocator are external: every call into them is a field of `Env`, and a run
records each call together with what it handed back.
-/

namespace SlangC

/-! ## Option values (slang.h types as the source uses them) -/

/-- Tag of a `slang::CompilerOptionValue`: which pair of slots is the active one. -/
inductive CompilerOptionValueKind
  | Int
  | String
  deriving DecidableEq, Repr

/-- The struct `slang::CompilerOptionValue`: a tag, two integer slots and two
`const char*` slots (`none` is the null pointer). -/
structure CompilerOptionValue where
  kind : CompilerOptionValueKind
  intValue0 : Int
  intValue1 : Int
  stringValue0 : Option String
  stringValue1 : Option String
  deriving DecidableEq, Repr

/-- Modelled from the spec: the value of a default-initialised
`slang::CompilerOptionValue result;`.  The struct and its default member
initialisers are declared in the library header slang.h, which is not among the
sources: integer kind, both integer slots 0, both string slots null. -/
def CompilerOptionValue.defaultInit : CompilerOptionValue :=
  { kind := CompilerOptionValueKind.Int
    intValue0 := 0
    intValue1 := 0
    stringValue0 := none
    stringValue1 := none }

/-- Source lines 9-14. -/
def makeCompilerOptionValueInt0 (value : Int) : CompilerOptionValue :=
  let result : CompilerOptionValue := CompilerOptionValue.defaultInit
  { result with intValue0 := value }

/-- Source lines 16-21. -/
def makeCompilerOptionValueInt1 (value : Int) : CompilerOptionValue :=
  let result : CompilerOptionValue := CompilerOptionValue.defaultInit
  { result with intValue1 := value }

/-- Source lines 23-29. -/
def makeCompilerOptionValueBool (value : Bool) : CompilerOptionValue :=
  let result : CompilerOptionValue := CompilerOptionValue.defaultInit
  let result := { result with intValue0 := if value then 1 else 0 }
  { result with intValue1 := if value then 1 else 0 }

/-- Source lines 31-37. -/
def makeCompilerOptionValueString0 (value : Option String) : CompilerOptionValue :=
  let result : CompilerOptionValue := CompilerOptionValue.defaultInit
  let result := { result with kind := CompilerOptionValueKind.String }
  { result with stringValue0 := value }

/-- Source lines 39-45. -/
def makeCompilerOptionValueString1 (value : Option String) : CompilerOptionValue :=
  let result : CompilerOptionValue := CompilerOptionValue.defaultInit
  let result := { result with kind := CompilerOptionValueKind.String }
  { result with stringValue1 := value }

/-- Source lines 47-54. -/
def makeCompilerOptionValueStringBoth (value1 value2 : Option String) : CompilerOptionValue :=
  let result : CompilerOptionValue := CompilerOptionValue.defaultInit
  let result := { result with kind := CompilerOptionValueKind.String }
  let result := { result with stringValue0 := value1 }
  { result with stringValue1 := value2 }

/-! ## Handles, descriptors and the external calls -/

/-- A byte of a blob or of an allocated block. -/
abbrev Byte := Fin 256

/-- What an `ISlangBlob` holds: `getBufferPointer()` points at these bytes and
`getBufferSize()` is their number. -/
abbrev Blob := List Byte

/-- A non-null address returned by the allocator; a pointer is an `Option Addr`
with `none` for `nullptr`. -/
abbrev Addr := Nat

/-- The type `SlangResult`: a signed status code. -/
abbrev SlangResult := Int

/-- The type `SlangProfileID`. -/
abbrev SlangProfileID := Nat

/-- The enumeration `SlangStage` (over a 32-bit unsigned integral type); a stage
is represented by its integral value. -/
abbrev SlangStage := Nat

/-- The implicit conversion of a stage to the `int` parameter of
`makeCompilerOptionValueInt0` (source line 77): the 32-bit value read as a
signed 32-bit integer. -/
def stageToInt (stage : SlangStage) : Int :=
  let u : Nat := stage % 2 ^ 32
  if u < 2 ^ 31 then (u : Int) else (u : Int) - 2 ^ 32

/-- Handle of an `slang::IGlobalSession`. -/
structure IGlobalSession where
  id : Nat
  deriving DecidableEq, Repr

/-- Handle of an `slang::ISession`. -/
structure ISession where
  id : Nat
  deriving DecidableEq, Repr

/-- Handle of an `slang::IModule`. -/
structure IModule where
  id : Nat
  deriving DecidableEq, Repr

/-- Handle of an `slang::IEntryPoint`. -/
structure IEntryPoint where
  id : Nat
  deriving DecidableEq, Repr

/-- An `slang::IComponentType*`: a module or an entry point seen through their
common base, or a composite made by the session. -/
inductive IComponentType
  | ofModule (m : IModule)
  | ofEntryPoint (e : IEntryPoint)
  | composite (id : Nat)
  deriving DecidableEq, Repr

/-- The enumerators of `slang::CompilerOptionName` that the source names (the
second one only in the commented-out line 78). -/
inductive CompilerOptionName
  | Stage
  | OptimizationLevel
  deriving DecidableEq, Repr

/-- The struct `slang::CompilerOptionEntry`. -/
structure CompilerOptionEntry where
  name : CompilerOptionName
  value : CompilerOptionValue
  deriving DecidableEq, Repr

/-- The enumerators of `SlangCompileTarget` needed here: the one the source
assigns and the one a value-initialised descriptor starts with. -/
inductive SlangCompileTarget
  | SLANG_TARGET_UNKNOWN
  | SLANG_SPIRV
  deriving DecidableEq, Repr

/-- A bit of `SlangTargetFlags`; only the one the source names is told apart. -/
inductive SlangTargetFlag
  | SLANG_TARGET_FLAG_GENERATE_SPIRV_DIRECTLY
  | otherFlag (bit : Nat)
  deriving DecidableEq, Repr

/-- The struct `slang::TargetDesc`, declared in slang.h.  The fields are the ones
the source assigns, and `compilerOptionEntryCount`, the length that slang.h pairs
with the pointer `compilerOptionEntries` (as `targetCount` is paired with
`targets` in `SessionDesc`).  `flags` is the set of bits that are on; the pointer
`compilerOptionEntries` is `none` when null and otherwise the array it points
at. -/
structure TargetDesc where
  format : SlangCompileTarget
  profile : SlangProfileID
  flags : List SlangTargetFlag
  forceGLSLScalarBufferLayout : Bool
  compilerOptionEntries : Option (List CompilerOptionEntry)
  compilerOptionEntryCount : Nat
  deriving DecidableEq, Repr

/-- The struct `slang::SessionDesc`, declared in slang.h: the pointer `targets`
(`none` when null, otherwise the array it points at) and its length. -/
structure SessionDesc where
  targets : Option (List TargetDesc)
  targetCount : Nat
  deriving DecidableEq, Repr

/-- The option entries a target description carries: the first
`compilerOptionEntryCount` elements of the array behind `compilerOptionEntries`. -/
def TargetDesc.carriedEntries (d : TargetDesc) : List CompilerOptionEntry :=
  (d.compilerOptionEntries.getD []).take d.compilerOptionEntryCount

/-- The targets a session description carries: the first `targetCount` elements
of the array behind `targets`. -/
def SessionDesc.carriedTargets (d : SessionDesc) : List TargetDesc :=
  (d.targets.getD []).take d.targetCount

/-- The wrapped compiler library and the allocator.  The first three fields are
declarations of slang.h that the source uses and does not contain: the macro
`SLANG_FAILED` and the values of `slang::TargetDesc targetDesc = {}` and
`slang::SessionDesc sessionDesc = {}`.  The others are the calls the source
makes; each returns what the source can see of the call: the returned pointer or
the pointer written through the out-parameter (`none` for null), and the
`SlangResult` where the source reads it.  A run makes each call at most once, so
a function of the arguments covers every answer the call can give in a run. -/
structure Env where
  SLANG_FAILED : SlangResult → Bool
  targetDescInit : TargetDesc
  sessionDescInit : SessionDesc
  createGlobalSession : Option IGlobalSession
  findProfile : IGlobalSession → String → SlangProfileID
  createSession : IGlobalSession → SessionDesc → Option ISession
  loadModuleFromSourceString : ISession → String → String → String → Option IModule
  findEntryPointByName : IModule → String → Option IEntryPoint
  createCompositeComponentType :
    ISession → List (Option IComponentType) → Nat → SlangResult × Option IComponentType
  getEntryPointCode : IComponentType → Nat → Nat → SlangResult × Option Blob
  malloc : Nat → Option Addr

/-- One step of a run: a call into the library or the allocator with its
arguments and what it handed back, or a store through one of the two output
pointers. -/
inductive Event
  | createGlobalSession (out : Option IGlobalSession)
  | findProfile (self : IGlobalSession) (name : String) (ret : SlangProfileID)
  | createSession (self : IGlobalSession) (desc : SessionDesc) (out : Option ISession)
  | loadModuleFromSourceString (self : ISession) (moduleName path source : String)
      (ret : Option IModule)
  | findEntryPointByName (self : IModule) (name : String) (out : Option IEntryPoint)
  | createCompositeComponentType (self : ISession)
      (componentTypes : List (Option IComponentType)) (componentTypeCount : Nat)
      (result : SlangResult) (out : Option IComponentType)
  | getEntryPointCode (self : IComponentType) (entryPointIndex targetIndex : Nat)
      (result : SlangResult) (out : Option Blob)
  | malloc (size : Nat) (ret : Option Addr)
  | memcpy (dest : Option Addr) (src : List Byte) (count : Nat)
  | storeLen (value : Nat)
  | storeResult (value : Int)
  deriving DecidableEq, Repr

/-- The memory the caller can observe: the slots behind `out_len` and
`out_result`, and the contents of the allocated blocks by base address. -/
structure Mem where
  out_len : Nat
  out_result : Int
  heap : Addr → Option (List Byte)

/-- The effect of `memcpy(dest, src, count)`, `none` when the call faults.  A
non-null `dest` is a block that `malloc(count)` just returned: it then holds the
first `count` bytes of `src`.  Through a null `dest` nothing can be written: a
copy of no bytes completes and leaves the memory as it is, a copy of one or more
bytes faults. -/
def Mem.memcpy (mem : Mem) (dest : Option Addr) (src : List Byte) (count : Nat) : Option Mem :=
  match dest with
  | some p =>
    some { mem with heap := fun q => if q = p then some (src.take count) else mem.heap q }
  | none => if count = 0 then some mem else none

/-- How a call ends: it returns a pointer (`none` for `nullptr`), or it has
undefined behaviour because it calls a member or writes through a null pointer. -/
inductive Outcome
  | returned (ptr : Option Addr)
  | undefined
  deriving DecidableEq, Repr

/-- A run of `compile_slang`: how it ended, the memory it left and the steps it
took, in order (up to the faulting one when the behaviour is undefined). -/
structure Run where
  outcome : Outcome
  mem : Mem
  trace : List Event

/-- The function `compile_slang`, source lines 58-141.  `mem` is the memory
before the call; the trace is a record of the steps and has no counterpart in the
source.  The member calls on `slangGlobalSession`, `session`, `composedProgram`
and `spirvCode` go through pointers the source never tests; where such a pointer
is null the run is `Outcome.undefined`.  The source does not test `out_spirv`
either: the run is `Outcome.undefined` where the `memcpy` into it faults, and
otherwise goes on to the stores and returns `out_spirv`, null or not. -/
def compile_slang (env : Env) (filepath_ptr entrypoint_ptr in_source_string : String)
    (stage : SlangStage) (mem : Mem) : Run :=
  -- lines 66-67
  let slangGlobalSession := env.createGlobalSession
  let t := [Event.createGlobalSession slangGlobalSession]
  match slangGlobalSession with
  | none => ⟨Outcome.undefined, mem, t⟩
  | some gs =>
    -- lines 69-74
    let sessionDesc : SessionDesc := env.sessionDescInit
    let targetDesc : TargetDesc := env.targetDescInit
    let targetDesc := { targetDesc with format := SlangCompileTarget.SLANG_SPIRV }
    let profile := env.findProfile gs "spirv_1_5"
    let t := t ++ [Event.findProfile gs "spirv_1_5" profile]
    let targetDesc := { targetDesc with profile := profile }
    let targetDesc :=
      { targetDesc with flags := [SlangTargetFlag.SLANG_TARGET_FLAG_GENERATE_SPIRV_DIRECTLY] }
    let targetDesc := { targetDesc with forceGLSLScalarBufferLayout := true }
    -- lines 76-80
    let compilerOptionEntries : List CompilerOptionEntry :=
      [] ++ [⟨CompilerOptionName.Stage, makeCompilerOptionValueInt0 (stageToInt stage)⟩]
    let targetDesc := { targetDesc with compilerOptionEntries := some compilerOptionEntries }
    -- lines 82-83
    let sessionDesc := { sessionDesc with targets := some [targetDesc] }
    let sessionDesc := { sessionDesc with targetCount := 1 }
    -- lines 85-86
    let session := env.createSession gs sessionDesc
    let t := t ++ [Event.createSession gs sessionDesc session]
    match session with
    | none => ⟨Outcome.undefined, mem, t⟩
    | some sess =>
      -- lines 88-96
      let slangModule := env.loadModuleFromSourceString sess "module" filepath_ptr in_source_string
      let t := t ++ [Event.loadModuleFromSourceString sess "module" filepath_ptr
        in_source_string slangModule]
      match slangModule with
      | none =>
        ⟨Outcome.returned none, { mem with out_result := -1 }, t ++ [Event.storeResult (-1)]⟩
      | some m =>
        -- lines 98-99
        let entryPoint := env.findEntryPointByName m entrypoint_ptr
        let t := t ++ [Event.findEntryPointByName m entrypoint_ptr entryPoint]
        -- lines 101-103
        let componentTypes : List (Option IComponentType) :=
          ([] ++ [some (IComponentType.ofModule m)]) ++
            [entryPoint.map IComponentType.ofEntryPoint]
        -- lines 105-119
        let composed := env.createCompositeComponentType sess componentTypes componentTypes.length
        let t := t ++ [Event.createCompositeComponentType sess componentTypes
          componentTypes.length composed.1 composed.2]
        if env.SLANG_FAILED composed.1 then
          ⟨Outcome.returned none, { mem with out_result := -1 }, t ++ [Event.storeResult (-1)]⟩
        else
          match composed.2 with
          | none => ⟨Outcome.undefined, mem, t⟩
          | some composedProgram =>
            -- lines 121-132
            let code := env.getEntryPointCode composedProgram 0 0
            let t := t ++ [Event.getEntryPointCode composedProgram 0 0 code.1 code.2]
            if env.SLANG_FAILED code.1 then
              ⟨Outcome.returned none, { mem with out_result := -1 },
                t ++ [Event.storeResult (-1)]⟩
            else
              match code.2 with
              | none => ⟨Outcome.undefined, mem, t⟩
              | some spirvCode =>
                -- line 134
                let out_spirv := env.malloc spirvCode.length
                let t := t ++ [Event.malloc spirvCode.length out_spirv]
                -- line 135
                match mem.memcpy out_spirv spirvCode spirvCode.length with
                | none => ⟨Outcome.undefined, mem, t⟩
                | some mem =>
                  let t := t ++ [Event.memcpy out_spirv spirvCode spirvCode.length]
                  -- lines 137-140
                  let mem := { mem with out_len := spirvCode.length }
                  let t := t ++ [Event.storeLen spirvCode.length]
                  let mem := { mem with out_result := 0 }
                  let t := t ++ [Event.storeResult 0]
                  ⟨Outcome.returned out_spirv, mem, t⟩

/-- The status a run ends with: the content of the slot behind `out_result` when
the call returns. -/
def Run.status (r : Run) : Option Int :=
  match r.outcome with
  | Outcome.returned _ => some r.mem.out_result
  | Outcome.undefined => none

/-! ## Reading a run -/

/-- The event is a module load that returned a module. -/
def Event.loadedModule : Event → Bool
  | Event.loadModuleFromSourceString _ _ _ _ (some _) => true
  | _ => false

/-- The event is a module load that returned null. -/
def Event.loadFailed : Event → Bool
  | Event.loadModuleFromSourceString _ _ _ _ none => true
  | _ => false

/-- The event is a composition that reported success. -/
def Event.composeSucceeded (env : Env) : Event → Bool
  | Event.createCompositeComponentType _ _ _ result _ => !env.SLANG_FAILED result
  | _ => false

/-- The event is a composition that reported failure. -/
def Event.composeFailed (env : Env) : Event → Bool
  | Event.createCompositeComponentType _ _ _ result _ => env.SLANG_FAILED result
  | _ => false

/-- The event is a code generation that reported success. -/
def Event.codeGenSucceeded (env : Env) : Event → Bool
  | Event.getEntryPointCode _ _ _ result _ => !env.SLANG_FAILED result
  | _ => false

/-- The event is a code generation that reported failure. -/
def Event.codeGenFailed (env : Env) : Event → Bool
  | Event.getEntryPointCode _ _ _ result _ => env.SLANG_FAILED result
  | _ => false

/-- The event hands back a null pointer that the source goes on to use without
a test: a creation of the global session or of the session that leaves the
pointer null, a composition or code generation that reports success and leaves
its out-pointer null, an allocation that returns null. -/
def Event.nullHandle (env : Env) : Event → Bool
  | Event.createGlobalSession none => true
  | Event.createSession _ _ none => true
  | Event.createCompositeComponentType _ _ _ result none => !env.SLANG_FAILED result
  | Event.getEntryPointCode _ _ _ result none => !env.SLANG_FAILED result
  | Event.malloc _ none => true
  | _ => false

/-- Module loading returned a module in this run. -/
def Run.moduleLoaded (r : Run) : Bool := r.trace.any Event.loadedModule

/-- Program composition reported success in this run. -/
def Run.composed (env : Env) (r : Run) : Bool := r.trace.any (Event.composeSucceeded env)

/-- Code generation reported success in this run. -/
def Run.generated (env : Env) (r : Run) : Bool := r.trace.any (Event.codeGenSucceeded env)

/-! ## Sample collaborators -/

/-- The macro `SLANG_FAILED` as slang.h defines it: negative codes are failures. -/
def slangFailed (status : SlangResult) : Bool := decide (status < 0)

/-- The value of `slang::TargetDesc targetDesc = {}` with the member
initialisers of slang.h for the fields modelled here: unknown format, unknown
profile, a null entry pointer and an entry count of 0.  (The source overwrites
`flags` before use.) -/
def headerTargetDesc : TargetDesc :=
  { format := SlangCompileTarget.SLANG_TARGET_UNKNOWN
    profile := 0
    flags := []
    forceGLSLScalarBufferLayout := false
    compilerOptionEntries := none
    compilerOptionEntryCount := 0 }

/-- The value of `slang::SessionDesc sessionDesc = {}` with the member
initialisers of slang.h: no targets. -/
def headerSessionDesc : SessionDesc :=
  { targets := none
    targetCount := 0 }

/-- A library in which every creation succeeds; a source loads unless it is the
text "syntax error", only the entry point "main" exists, composition fails on a
null component, code generation yields four bytes, and the allocator returns the
address 4096. -/
def sampleEnv : Env :=
  { SLANG_FAILED := slangFailed
    targetDescInit := headerTargetDesc
    sessionDescInit := headerSessionDesc
    createGlobalSession := some ⟨1⟩
    findProfile := fun _ _ => 15
    createSession := fun _ _ => some ⟨2⟩
    loadModuleFromSourceString := fun _ _ _ source =>
      if source = "syntax error" then none else some ⟨3⟩
    findEntryPointByName := fun _ name => if name = "main" then some ⟨4⟩ else none
    createCompositeComponentType := fun _ componentTypes _ =>
      if componentTypes.all Option.isSome then (0, some (IComponentType.composite 5))
      else (-1, none)
    getEntryPointCode := fun _ _ _ => (0, some [3, 2, 35, 7])
    malloc := fun _ => some 4096 }

/-- The memory before the sample calls: both slots hold 99 and nothing is
allocated. -/
def sampleMem : Mem :=
  { out_len := 99
    out_result := 99
    heap := fun _ => none }

/-- A library that differs from `sampleEnv` in the allocator only: it returns
null. -/
def allocFailEnv : Env :=
  { sampleEnv with malloc := fun _ => none }

/-- A library that differs from `sampleEnv` in two calls: code generation
reports success with a blob of no bytes, and the allocator returns null. -/
def emptyBlobEnv : Env :=
  { sampleEnv with
    getEntryPointCode := fun _ _ _ => (0, some [])
    malloc := fun _ => none }

/-! ## Properties of a run -/

/-- The calls of the pipeline, without their arguments. -/
inductive Call
  | createGlobalSession
  | findProfile
  | createSession
  | loadModuleFromSourceString
  | findEntryPointByName
  | createCompositeComponentType
  | getEntryPointCode
  | malloc
  | memcpy
  deriving DecidableEq, Repr

/-- The call an event is; `none` for the stores through the output pointers. -/
def Event.call : Event → Option Call
  | Event.createGlobalSession _ => some Call.createGlobalSession
  | Event.findProfile _ _ _ => some Call.findProfile
  | Event.createSession _ _ _ => some Call.createSession
  | Event.loadModuleFromSourceString _ _ _ _ _ => some Call.loadModuleFromSourceString
  | Event.findEntryPointByName _ _ _ => some Call.findEntryPointByName
  | Event.createCompositeComponentType _ _ _ _ _ => some Call.createCompositeComponentType
  | Event.getEntryPointCode _ _ _ _ _ => some Call.getEntryPointCode
  | Event.malloc _ _ => some Call.malloc
  | Event.memcpy _ _ _ => some Call.memcpy
  | Event.storeLen _ => none
  | Event.storeResult _ => none

/-- The calls of a run, in the order they were made. -/
def Run.calls (r : Run) : List Call := r.trace.filterMap Event.call

/-- The order of the calls in the source text. -/
def pipelineOrder : List Call :=
  [Call.createGlobalSession, Call.findProfile, Call.createSession,
   Call.loadModuleFromSourceString, Call.findEntryPointByName,
   Call.createCompositeComponentType, Call.getEntryPointCode, Call.malloc, Call.memcpy]

/-- The event is a store through `out_len`. -/
def Event.isStoreLen : Event → Bool
  | Event.storeLen _ => true
  | _ => false

/-- The bytes behind the returned pointer; `none` when the run returns null or
does not return. -/
def Run.buffer (r : Run) : Option (List Byte) :=
  match r.outcome with
  | Outcome.returned (some p) => r.mem.heap p
  | _ => none

/-- The session descriptions handed to `createSession` in a run. -/
def Run.sessionDescs (r : Run) : List SessionDesc :=
  r.trace.filterMap fun e =>
    match e with
    | Event.createSession _ desc _ => some desc
    | _ => none

/-- The status contract: a status of 0 or -1 is written, and it is 0 exactly
when module loading returned a module and composition and code generation both
reported success; otherwise it is -1. -/
def StatusContract (env : Env) (r : Run) : Prop :=
  (r.status = some 0 ∨ r.status = some (-1)) ∧
  (r.status = some 0 ↔
    (r.moduleLoaded = true ∧ r.composed env = true ∧ r.generated env = true)) ∧
  (r.status = some (-1) ↔
    ¬ (r.moduleLoaded = true ∧ r.composed env = true ∧ r.generated env = true))

/-- The short-circuit rule on a run.  The calls are made in the order of the
source text and stop somewhere along it; nothing that follows a failed fallible
stage is called; and a call is made only if every fallible stage before it
succeeded. -/
def ShortCircuit (env : Env) (r : Run) : Prop :=
  r.calls <+: pipelineOrder ∧
  (r.trace.any Event.loadFailed = true →
    Call.findEntryPointByName ∉ r.calls ∧ Call.createCompositeComponentType ∉ r.calls ∧
    Call.getEntryPointCode ∉ r.calls ∧ Call.malloc ∉ r.calls ∧ Call.memcpy ∉ r.calls) ∧
  (r.trace.any (Event.composeFailed env) = true →
    Call.getEntryPointCode ∉ r.calls ∧ Call.malloc ∉ r.calls ∧ Call.memcpy ∉ r.calls) ∧
  (r.trace.any (Event.codeGenFailed env) = true →
    Call.malloc ∉ r.calls ∧ Call.memcpy ∉ r.calls) ∧
  (Call.findEntryPointByName ∈ r.calls ∨ Call.createCompositeComponentType ∈ r.calls →
    r.moduleLoaded = true) ∧
  (Call.getEntryPointCode ∈ r.calls → r.moduleLoaded = true ∧ r.composed env = true) ∧
  (Call.malloc ∈ r.calls ∨ Call.memcpy ∈ r.calls →
    r.moduleLoaded = true ∧ r.composed env = true ∧ r.generated env = true)

/-- Two runs agree on what the caller can observe: status, content of the
length slot, and the bytes of the returned buffer. -/
def SameResult (r₁ r₂ : Run) : Prop :=
  r₁.status = r₂.status ∧ r₁.mem.out_len = r₂.mem.out_len ∧ r₁.buffer = r₂.buffer

/-- Modelled from the spec: the contract of the module loader (spec 4.4), which
is part of the wrapped library and not among the sources.  The loader uses the
file-path label purely for diagnostic attribution, so what it returns does not
depend on the label. -/
def LoaderIgnoresLabel (env : Env) : Prop :=
  ∀ (sess : ISession) (moduleName label₁ label₂ source : String),
    env.loadModuleFromSourceString sess moduleName label₁ source
      = env.loadModuleFromSourceString sess moduleName label₂ source

/-- The output transfer as first stated: for every blob that a successful code
generation produced, the run returns a block that `malloc` gave for the blob's
size, the block holds the blob's bytes and the length slot holds the blob's
size. -/
def OutputTransfer (env : Env) (r : Run) : Prop :=
  ∀ prog i j res blob, Event.getEntryPointCode prog i j res (some blob) ∈ r.trace →
    env.SLANG_FAILED res = false →
    ∃ p, r.outcome = Outcome.returned (some p) ∧
      Event.malloc blob.length (some p) ∈ r.trace ∧
      r.mem.heap p = some blob ∧ r.mem.out_len = blob.length

/-! ## Theorems -/

/-- C7: each of the six option value constructors returns the default value
(integer kind, integer slots 0, string slots null) changed only in the slots it
is named after; the kind is string exactly for the three string constructors and
the slots of the inactive kind keep their defaults. -/
theorem C7_option_value_builders :
    (∀ v : Int, makeCompilerOptionValueInt0 v =
        { kind := CompilerOptionValueKind.Int, intValue0 := v, intValue1 := 0,
          stringValue0 := none, stringValue1 := none }) ∧
    (∀ v : Int, makeCompilerOptionValueInt1 v =
        { kind := CompilerOptionValueKind.Int, intValue0 := 0, intValue1 := v,
          stringValue0 := none, stringValue1 := none }) ∧
    (makeCompilerOptionValueBool true =
        { kind := CompilerOptionValueKind.Int, intValue0 := 1, intValue1 := 1,
          stringValue0 := none, stringValue1 := none }) ∧
    (makeCompilerOptionValueBool false =
        { kind := CompilerOptionValueKind.Int, intValue0 := 0, intValue1 := 0,
          stringValue0 := none, stringValue1 := none }) ∧
    (∀ s : Option String, makeCompilerOptionValueString0 s =
        { kind := CompilerOptionValueKind.String, intValue0 := 0, intValue1 := 0,
          stringValue0 := s, stringValue1 := none }) ∧
    (∀ s : Option String, makeCompilerOptionValueString1 s =
        { kind := CompilerOptionValueKind.String, intValue0 := 0, intValue1 := 0,
          stringValue0 := none, stringValue1 := s }) ∧
    (∀ s0 s1 : Option String, makeCompilerOptionValueStringBoth s0 s1 =
        { kind := CompilerOptionValueKind.String, intValue0 := 0, intValue1 := 0,
          stringValue0 := s0, stringValue1 := s1 }) := by
  refine ⟨?_, ?_, ?_, ?_, ?_, ?_, ?_⟩
  · intro v; rfl
  · intro v; rfl
  · rfl
  · rfl
  · intro s; rfl
  · intro s; rfl
  · intro s0 s1; rfl

/-- C1, amended: when no call hands back a null pointer that the source uses
untested (creation of the global session and of the session, the out-pointers of
a successful composition and code generation, the allocation), the call returns
with status 0 or -1, and the status is 0 exactly when module loading returned a
module and composition and code generation reported success, and -1 otherwise. -/
theorem C1_status_contract (env : Env) (path entry src : String) (stage : SlangStage)
    (mem : Mem)
    (h : ∀ e ∈ (compile_slang env path entry src stage mem).trace, e.nullHandle env = false) :
    StatusContract env (compile_slang env path entry src stage mem) := by
  generalize hr : compile_slang env path entry src stage mem = r at h ⊢
  unfold compile_slang at hr
  dsimp only at hr
  repeat' split at hr
  all_goals subst hr
  all_goals try (rename_i hcopy; unfold Mem.memcpy at hcopy; repeat' split at hcopy)
  all_goals
    simp_all [StatusContract, Run.status, Run.moduleLoaded, Run.composed, Run.generated,
      Event.loadedModule, Event.composeSucceeded, Event.codeGenSucceeded, Event.nullHandle]

/-- C1, witness: the sample library hands back no null pointer on a valid
source, and the status contract holds of that run. -/
theorem C1_status_contract_witness :
    (∀ e ∈ (compile_slang sampleEnv "a.slang" "main" "void main() {}" 6 sampleMem).trace,
      e.nullHandle sampleEnv = false) ∧
    StatusContract sampleEnv
      (compile_slang sampleEnv "a.slang" "main" "void main() {}" 6 sampleMem) :=
  ⟨by decide, C1_status_contract sampleEnv "a.slang" "main" "void main() {}" 6 sampleMem
    (by decide)⟩

/-- C1, counterexample: with an allocator that returns null, module loading,
composition and code generation all succeed and yet no status is written: the
run ends in the `memcpy` into the null pointer. -/
theorem C1_fails_when_allocation_fails :
    (compile_slang allocFailEnv "a.slang" "main" "void main() {}" 6 sampleMem).moduleLoaded
      = true ∧
    (compile_slang allocFailEnv "a.slang" "main" "void main() {}" 6 sampleMem).composed
      allocFailEnv = true ∧
    (compile_slang allocFailEnv "a.slang" "main" "void main() {}" 6 sampleMem).generated
      allocFailEnv = true ∧
    (compile_slang allocFailEnv "a.slang" "main" "void main() {}" 6 sampleMem).status = none ∧
    ¬ StatusContract allocFailEnv
      (compile_slang allocFailEnv "a.slang" "main" "void main() {}" 6 sampleMem) := by
  refine ⟨by decide, by decide, by decide, by decide, ?_⟩
  intro hc
  have h := hc.1
  revert h
  decide

/-- C2: a call that ends with status -1 returns the null pointer, and it does
so after a failed module load, a failed composition or a failed code
generation. -/
theorem C2_failure_returns_null (env : Env) (path entry src : String) (stage : SlangStage)
    (mem : Mem) (h : (compile_slang env path entry src stage mem).status = some (-1)) :
    (compile_slang env path entry src stage mem).outcome = Outcome.returned none ∧
    ((compile_slang env path entry src stage mem).trace.any Event.loadFailed = true ∨
     (compile_slang env path entry src stage mem).trace.any (Event.composeFailed env) = true ∨
     (compile_slang env path entry src stage mem).trace.any (Event.codeGenFailed env) = true) := by
  generalize hr : compile_slang env path entry src stage mem = r at h ⊢
  unfold compile_slang at hr
  dsimp only at hr
  repeat' split at hr
  all_goals subst hr
  all_goals
    simp_all [Run.status, Event.loadFailed, Event.composeFailed, Event.codeGenFailed]

/-- C2, witness: a source that does not load ends with status -1 and a null
pointer. -/
theorem C2_failure_returns_null_witness :
    (compile_slang sampleEnv "a.slang" "main" "syntax error" 6 sampleMem).status = some (-1) ∧
    (compile_slang sampleEnv "a.slang" "main" "syntax error" 6 sampleMem).outcome
      = Outcome.returned none :=
  ⟨by decide,
   (C2_failure_returns_null sampleEnv "a.slang" "main" "syntax error" 6 sampleMem
    (by decide)).1⟩

/-- C4, amended: after a code generation that succeeded with a blob, `malloc` is
called with the blob's size; when it returns a block, the call returns that
block with status 0, the block was the destination of the copy and holds the
blob's bytes, the length slot holds the blob's size, and no other block has
changed. -/
theorem C4_output_transfer (env : Env) (path entry src : String) (stage : SlangStage)
    (mem : Mem) (prog : IComponentType) (i j : Nat) (res : SlangResult) (blob : Blob)
    (hgen : Event.getEntryPointCode prog i j res (some blob) ∈
      (compile_slang env path entry src stage mem).trace)
    (hok : env.SLANG_FAILED res = false) :
    Event.malloc blob.length (env.malloc blob.length) ∈
      (compile_slang env path entry src stage mem).trace ∧
    (∀ p, env.malloc blob.length = some p →
      (compile_slang env path entry src stage mem).outcome = Outcome.returned (some p) ∧
      (compile_slang env path entry src stage mem).status = some 0 ∧
      Event.memcpy (some p) blob blob.length ∈
        (compile_slang env path entry src stage mem).trace ∧
      (compile_slang env path entry src stage mem).mem.heap p = some blob ∧
      (compile_slang env path entry src stage mem).mem.out_len = blob.length ∧
      ∀ q, q ≠ p → (compile_slang env path entry src stage mem).mem.heap q = mem.heap q) := by
  generalize hr : compile_slang env path entry src stage mem = r at hgen ⊢
  unfold compile_slang at hr
  dsimp only at hr
  repeat' split at hr
  all_goals subst hr
  all_goals try (rename_i hcopy; unfold Mem.memcpy at hcopy; repeat' split at hcopy)
  all_goals simp_all [Run.status]
  all_goals subst_vars
  all_goals simp_all

/-- C4, witness: in the sample run code generation succeeds with four bytes,
`malloc(4)` is called and returns the block at 4096, and the call returns that
block with status 0, holding those four bytes, the length slot holding 4. -/
theorem C4_output_transfer_witness :
    Event.getEntryPointCode (IComponentType.composite 5) 0 0 0 (some [3, 2, 35, 7]) ∈
      (compile_slang sampleEnv "a.slang" "main" "void main() {}" 6 sampleMem).trace ∧
    sampleEnv.SLANG_FAILED 0 = false ∧
    Event.malloc 4 (some 4096) ∈
      (compile_slang sampleEnv "a.slang" "main" "void main() {}" 6 sampleMem).trace ∧
    (compile_slang sampleEnv "a.slang" "main" "void main() {}" 6 sampleMem).outcome
      = Outcome.returned (some 4096) ∧
    (compile_slang sampleEnv "a.slang" "main" "void main() {}" 6 sampleMem).status = some 0 ∧
    (compile_slang sampleEnv "a.slang" "main" "void main() {}" 6 sampleMem).mem.heap 4096
      = some [3, 2, 35, 7] ∧
    (compile_slang sampleEnv "a.slang" "main" "void main() {}" 6 sampleMem).mem.out_len = 4 :=
  ⟨by decide, by decide,
   (C4_output_transfer sampleEnv "a.slang" "main" "void main() {}" 6 sampleMem
    (IComponentType.composite 5) 0 0 0 [3, 2, 35, 7] (by decide) (by decide)).1,
   ((C4_output_transfer sampleEnv "a.slang" "main" "void main() {}" 6 sampleMem
    (IComponentType.composite 5) 0 0 0 [3, 2, 35, 7] (by decide) (by decide)).2 4096 rfl).1,
   ((C4_output_transfer sampleEnv "a.slang" "main" "void main() {}" 6 sampleMem
    (IComponentType.composite 5) 0 0 0 [3, 2, 35, 7] (by decide) (by decide)).2 4096 rfl).2.1,
   ((C4_output_transfer sampleEnv "a.slang" "main" "void main() {}" 6 sampleMem
    (IComponentType.composite 5) 0 0 0 [3, 2, 35, 7] (by decide)
    (by decide)).2 4096 rfl).2.2.2.1,
   ((C4_output_transfer sampleEnv "a.slang" "main" "void main() {}" 6 sampleMem
    (IComponentType.composite 5) 0 0 0 [3, 2, 35, 7] (by decide)
    (by decide)).2 4096 rfl).2.2.2.2.1⟩

/-- C4, counterexample: code generation succeeds with a blob of no bytes and
`malloc(0)` returns null; the call returns the null pointer, not a block. -/
theorem C4_fails_for_empty_blob_and_null_allocation :
    Event.getEntryPointCode (IComponentType.composite 5) 0 0 0 (some []) ∈
      (compile_slang emptyBlobEnv "b.slang" "main" "void main() {}" 5 sampleMem).trace ∧
    emptyBlobEnv.SLANG_FAILED 0 = false ∧
    (compile_slang emptyBlobEnv "b.slang" "main" "void main() {}" 5 sampleMem).outcome
      = Outcome.returned none ∧
    ¬ OutputTransfer emptyBlobEnv
      (compile_slang emptyBlobEnv "b.slang" "main" "void main() {}" 5 sampleMem) := by
  refine ⟨by decide, by decide, by decide, ?_⟩
  intro hc
  obtain ⟨p, hp, _⟩ := hc (IComponentType.composite 5) 0 0 0 [] (by decide) (by decide)
  have hnull :
      (compile_slang emptyBlobEnv "b.slang" "main" "void main() {}" 5 sampleMem).outcome
        = Outcome.returned none := by decide
  rw [hnull] at hp
  cases hp

/-- C5: every run obeys the short-circuit rule: the calls follow the order of
the source and stop along it; after a failed module load neither entry-point
lookup, composition, code generation, allocation nor copy is called; after a
failed composition neither code generation, allocation nor copy; after a failed
code generation neither allocation nor copy; and a call is made only if every
fallible stage before it succeeded. -/
theorem C5_short_circuit (env : Env) (path entry src : String) (stage : SlangStage)
    (mem : Mem) : ShortCircuit env (compile_slang env path entry src stage mem) := by
  generalize hr : compile_slang env path entry src stage mem = r
  unfold compile_slang at hr
  dsimp only at hr
  repeat' split at hr
  all_goals subst hr
  all_goals
    simp_all [ShortCircuit, Run.calls, Event.call, pipelineOrder, Run.moduleLoaded,
      Run.composed, Run.generated, Event.loadedModule, Event.composeSucceeded,
      Event.codeGenSucceeded, Event.loadFailed, Event.composeFailed, Event.codeGenFailed]

/-- C5, witness: on a source that does not load, the sample run makes the four
calls up to the module load and no other. -/
theorem C5_short_circuit_witness :
    (compile_slang sampleEnv "a.slang" "main" "syntax error" 6 sampleMem).trace.any
      Event.loadFailed = true ∧
    (compile_slang sampleEnv "a.slang" "main" "syntax error" 6 sampleMem).calls
      = [Call.createGlobalSession, Call.findProfile, Call.createSession,
         Call.loadModuleFromSourceString] ∧
    Call.malloc ∉ (compile_slang sampleEnv "a.slang" "main" "syntax error" 6 sampleMem).calls :=
  ⟨by decide, by decide,
   ((C5_short_circuit sampleEnv "a.slang" "main" "syntax error" 6 sampleMem).2.1
    (by decide)).2.2.2.1⟩

/-- C9: a call that ends with status -1 leaves the output-length slot as it was
and makes no store through `out_len`; a call that ends with status 0 makes
exactly one; and a store through `out_len` is made only by a call that ends with
status 0. -/
theorem C9_length_frame (env : Env) (path entry src : String) (stage : SlangStage)
    (mem : Mem) :
    ((compile_slang env path entry src stage mem).status = some (-1) →
      (compile_slang env path entry src stage mem).mem.out_len = mem.out_len ∧
      (compile_slang env path entry src stage mem).trace.countP Event.isStoreLen = 0) ∧
    ((compile_slang env path entry src stage mem).status = some 0 →
      (compile_slang env path entry src stage mem).trace.countP Event.isStoreLen = 1) ∧
    ((compile_slang env path entry src stage mem).trace.any Event.isStoreLen = true →
      (compile_slang env path entry src stage mem).status = some 0) := by
  generalize hr : compile_slang env path entry src stage mem = r
  unfold compile_slang at hr
  dsimp only at hr
  repeat' split at hr
  all_goals subst hr
  all_goals simp_all [Run.status, Event.isStoreLen, Mem.memcpy, List.countP_cons]

/-- C9, witness: the sample run on a source that does not load ends with status
-1 and the length slot still holds the 99 it held before the call. -/
theorem C9_length_frame_witness :
    (compile_slang sampleEnv "a.slang" "main" "syntax error" 6 sampleMem).status = some (-1) ∧
    (compile_slang sampleEnv "a.slang" "main" "syntax error" 6 sampleMem).mem.out_len = 99 :=
  ⟨by decide,
   ((C9_length_frame sampleEnv "a.slang" "main" "syntax error" 6 sampleMem).1
    (by decide)).1⟩

/-- C10: when module loading returns a module, the lookup of the entry point is
made and, whatever it hands back, composition is called with exactly two
components, the module first and the lookup's result second; every code
generation is called with entry index 0 and target index 0; and the status is -1
only if composition or code generation reported failure. -/
theorem C10_lookup_failure_deferred (env : Env) (path entry src : String)
    (stage : SlangStage) (mem : Mem) (sess : ISession) (name : String) (m : IModule)
    (hload : Event.loadModuleFromSourceString sess name path src (some m) ∈
      (compile_slang env path entry src stage mem).trace) :
    (∃ res out,
      Event.findEntryPointByName m entry (env.findEntryPointByName m entry) ∈
        (compile_slang env path entry src stage mem).trace ∧
      Event.createCompositeComponentType sess
          [some (IComponentType.ofModule m),
           (env.findEntryPointByName m entry).map IComponentType.ofEntryPoint] 2 res out ∈
        (compile_slang env path entry src stage mem).trace ∧
      ((compile_slang env path entry src stage mem).status = some (-1) →
        env.SLANG_FAILED res = true ∨
        ∃ prog res2 out2,
          Event.getEntryPointCode prog 0 0 res2 out2 ∈
            (compile_slang env path entry src stage mem).trace ∧
          env.SLANG_FAILED res2 = true)) ∧
    (∀ prog i j res2 out2,
      Event.getEntryPointCode prog i j res2 out2 ∈
        (compile_slang env path entry src stage mem).trace → i = 0 ∧ j = 0) := by
  generalize hr : compile_slang env path entry src stage mem = r at hload ⊢
  unfold compile_slang at hr
  dsimp only at hr
  repeat' split at hr
  all_goals subst hr
  all_goals simp_all [Run.status]
  exact ⟨_, _, ⟨rfl, rfl⟩, by assumption⟩

/-- C10, witness: the sample library has no entry point "nomain"; the lookup
hands back null, composition is still called, with the module and the null
pointer, and it is composition that fails. -/
theorem C10_lookup_failure_deferred_witness :
    Event.loadModuleFromSourceString ⟨2⟩ "module" "a.slang" "void main() {}" (some ⟨3⟩) ∈
      (compile_slang sampleEnv "a.slang" "nomain" "void main() {}" 6 sampleMem).trace ∧
    sampleEnv.findEntryPointByName ⟨3⟩ "nomain" = none ∧
    ∃ res out,
      Event.findEntryPointByName ⟨3⟩ "nomain" (sampleEnv.findEntryPointByName ⟨3⟩ "nomain") ∈
        (compile_slang sampleEnv "a.slang" "nomain" "void main() {}" 6 sampleMem).trace ∧
      Event.createCompositeComponentType ⟨2⟩
          [some (IComponentType.ofModule ⟨3⟩),
           (sampleEnv.findEntryPointByName ⟨3⟩ "nomain").map IComponentType.ofEntryPoint]
          2 res out ∈
        (compile_slang sampleEnv "a.slang" "nomain" "void main() {}" 6 sampleMem).trace ∧
      ((compile_slang sampleEnv "a.slang" "nomain" "void main() {}" 6 sampleMem).status
          = some (-1) →
        sampleEnv.SLANG_FAILED res = true ∨
        ∃ prog res2 out2,
          Event.getEntryPointCode prog 0 0 res2 out2 ∈
            (compile_slang sampleEnv "a.slang" "nomain" "void main() {}" 6 sampleMem).trace ∧
          sampleEnv.SLANG_FAILED res2 = true) :=
  ⟨by decide, by decide,
   (C10_lookup_failure_deferred sampleEnv "a.slang" "nomain" "void main() {}" 6 sampleMem
    ⟨2⟩ "module" ⟨3⟩ (by decide)).1⟩

/-- What every session description handed to `createSession` looks like: one
target, with the SPIR-V format, the profile found under "spirv_1_5", the
direct-SPIR-V flag, the scalar layout forced and the entry pointer at a
one-element array holding the Stage entry; the entry count is the one of the
value-initialised descriptor, which the source never assigns. -/
theorem createSession_desc (env : Env) (path entry src : String) (stage : SlangStage)
    (mem : Mem) (gs : IGlobalSession) (desc : SessionDesc) (out : Option ISession)
    (h : Event.createSession gs desc out ∈ (compile_slang env path entry src stage mem).trace) :
    desc =
      { targets := some
          [{ format := SlangCompileTarget.SLANG_SPIRV
             profile := env.findProfile gs "spirv_1_5"
             flags := [SlangTargetFlag.SLANG_TARGET_FLAG_GENERATE_SPIRV_DIRECTLY]
             forceGLSLScalarBufferLayout := true
             compilerOptionEntries := some
               [⟨CompilerOptionName.Stage,
                 { kind := CompilerOptionValueKind.Int, intValue0 := stageToInt stage,
                   intValue1 := 0, stringValue0 := none, stringValue1 := none }⟩]
             compilerOptionEntryCount := env.targetDescInit.compilerOptionEntryCount }]
        targetCount := 1 } := by
  generalize hr : compile_slang env path entry src stage mem = r at h
  unfold compile_slang at hr
  dsimp only at hr
  repeat' split at hr
  all_goals subst hr
  all_goals simp_all [makeCompilerOptionValueInt0, CompilerOptionValue.defaultInit]

/-- C6, at the compute stage (6): the one session description handed to
`createSession` has exactly one target, with the SPIR-V format, the profile
found under "spirv_1_5", the direct-SPIR-V flag and the scalar layout forced;
its entry pointer is at a one-element array with the Stage entry whose integer
slot 0 is 6, but its entry count is still the 0 of the value-initialised
descriptor, so the target carries no option entry. -/
theorem C6_target_configuration_at_compute :
    (compile_slang sampleEnv "a.slang" "main" "void main() {}" 6 sampleMem).sessionDescs =
      [{ targets := some
          [{ format := SlangCompileTarget.SLANG_SPIRV
             profile := sampleEnv.findProfile ⟨1⟩ "spirv_1_5"
             flags := [SlangTargetFlag.SLANG_TARGET_FLAG_GENERATE_SPIRV_DIRECTLY]
             forceGLSLScalarBufferLayout := true
             compilerOptionEntries := some
               [⟨CompilerOptionName.Stage,
                 { kind := CompilerOptionValueKind.Int, intValue0 := 6, intValue1 := 0,
                   stringValue0 := none, stringValue1 := none }⟩]
             compilerOptionEntryCount := 0 }]
         targetCount := 1 }] ∧
    (∀ d ∈ (compile_slang sampleEnv "a.slang" "main" "void main() {}" 6 sampleMem).sessionDescs,
      d.carriedTargets.length = 1 ∧
      ∀ t ∈ d.carriedTargets, t.carriedEntries = [] ∧ t.carriedEntries.length ≠ 1) := by
  decide

/-- C8: with a module loader that keeps to its contract and returns the same
whatever the label, the two runs that differ only in the file-path label end
with the same status, the same content of the length slot and the same buffer
bytes, for every source, entry-point name, stage and pair of labels. -/
theorem C8_label_independence (env : Env) (hloader : LoaderIgnoresLabel env)
    (label₁ label₂ entry src : String) (stage : SlangStage) (mem : Mem) :
    SameResult (compile_slang env label₁ entry src stage mem)
      (compile_slang env label₂ entry src stage mem) := by
  have h : ∀ sess, env.loadModuleFromSourceString sess "module" label₁ src
      = env.loadModuleFromSourceString sess "module" label₂ src :=
    fun sess => hloader sess "module" label₁ label₂ src
  clear hloader
  generalize hr : compile_slang env label₁ entry src stage mem = r
  unfold compile_slang at hr
  dsimp only at hr
  repeat' split at hr
  all_goals subst hr
  all_goals simp_all [compile_slang, SameResult, Run.status, Run.buffer]

/-- C8, witness: the sample loader does not look at the label, and the runs
under the labels "a.slang" and "b.slang" agree: both end with status 0, length 4
and the same four bytes. -/
theorem C8_label_independence_witness :
    LoaderIgnoresLabel sampleEnv ∧
    SameResult (compile_slang sampleEnv "a.slang" "main" "void main() {}" 6 sampleMem)
      (compile_slang sampleEnv "b.slang" "main" "void main() {}" 6 sampleMem) ∧
    (compile_slang sampleEnv "b.slang" "main" "void main() {}" 6 sampleMem).buffer
      = some [3, 2, 35, 7] :=
  ⟨fun _ _ _ _ _ => rfl,
   C8_label_independence sampleEnv (fun _ _ _ _ _ => rfl) "a.slang" "b.slang" "main"
    "void main() {}" 6 sampleMem,
   by decide⟩

end SlangC
